import Mathlib

/-!
Shallow embedding of the inventory web service (`main.js`): an Express
HTTP API over a PostgreSQL record store (`items` table) and a
filesystem blob store (the uploads directory written by multer).

Modelling conventions:
* timestamps (`NOW()`, `Date.now()`) are `Nat` parameters threaded into
  each operation;
* the `items` table is a `List Item` in insertion order together with
  the serial-id counter; the uploads directory is a `List String` of
  the filenames currently present;
* JavaScript string truthiness (`if (x)`) on an optional string field
  is `optTruthy`: present and non-empty;
* each Express handler becomes a function from the pre-request state
  and the request data to the response and the post-request state;
  the multer middleware step (which writes the uploaded file before
  the handler body runs) is part of the handler function.
-/

/-- A row of the `items` table (`init.sql`): serial id, name,
description, optional photo filename, `created_at`, optional
`updated_at`. -/
structure Item where
  id : Nat
  name : String
  description : String
  photo : Option String
  createdAt : Nat
  updatedAt : Option Nat
deriving DecidableEq, Repr

/-- JavaScript truthiness of an optional string: defined and non-empty
(`undefined`, `null` and `""` are falsy). -/
def optTruthy : Option String → Bool
  | some s => s ≠ ""
  | none => false

/-- A partial update body as consumed by `updateItem(id, data)`: the
three fields the function reads from `data`, each optionally supplied. -/
structure ItemPatch where
  name : Option String
  description : Option String
  photo : Option String
deriving DecidableEq, Repr

/-- Insert one item into a list sorted by `createdAt` descending. -/
def insertByCreated (it : Item) : List Item → List Item
  | [] => [it]
  | x :: xs => if x.createdAt < it.createdAt then it :: x :: xs else x :: insertByCreated it xs

/-- Sort items newest-created first (`ORDER BY created_at DESC`). -/
def sortByCreatedDesc (l : List Item) : List Item :=
  l.foldr insertByCreated []

/-- The relational record store: the `items` table rows in insertion
order plus the next value of the serial id sequence. -/
structure RecordStore where
  items : List Item
  nextId : Nat
deriving DecidableEq, Repr

/-- `addItem`: `INSERT INTO items (name, description, photo, created_at)
VALUES ($1,$2,$3,NOW()) RETURNING *`. Assigns the serial id and
`created_at`; `updated_at` starts NULL. -/
def addItem (rs : RecordStore) (now : Nat) (name description : String)
    (photo : Option String) : Item × RecordStore :=
  let it : Item := ⟨rs.nextId, name, description, photo, now, none⟩
  (it, ⟨rs.items ++ [it], rs.nextId + 1⟩)

/-- `getItems`: `SELECT * FROM items ORDER BY created_at DESC`. -/
def getItems (rs : RecordStore) : List Item :=
  sortByCreatedDesc rs.items

/-- `getItemById`: `SELECT * FROM items WHERE id=$1`, returning
`result.rows[0]`. -/
def getItemById (rs : RecordStore) (id : Nat) : Option Item :=
  rs.items.find? (fun it => it.id == id)

/-- The dynamic `SET` list of `updateItem`: a field is included exactly
when its value is truthy (`if (data.name) ...` etc.); `updated_at` is
always set. -/
def applyTruthyPatch (p : ItemPatch) (now : Nat) (it : Item) : Item :=
  { it with
    name := if optTruthy p.name then p.name.getD it.name else it.name
    description := if optTruthy p.description then p.description.getD it.description else it.description
    photo := if optTruthy p.photo then p.photo else it.photo
    updatedAt := some now }

/-- `updateItem(id, data)`: collects the truthy fields of `data`; if
none, returns `null` without touching the database; otherwise issues
`UPDATE items SET ... , updated_at=NOW() WHERE id=$n RETURNING *` and
returns `result.rows[0]` (`undefined`, i.e. `none`, when no row
matched). -/
def updateItem (rs : RecordStore) (now : Nat) (id : Nat) (p : ItemPatch) :
    Option Item × RecordStore :=
  if optTruthy p.name || optTruthy p.description || optTruthy p.photo then
    ((rs.items.find? (fun it => it.id == id)).map (applyTruthyPatch p now),
     ⟨rs.items.map (fun it => if it.id == id then applyTruthyPatch p now it else it),
      rs.nextId⟩)
  else (none, rs)

/-- `deleteItem(id)`: `DELETE FROM items WHERE id=$1 RETURNING *`,
returning `result.rows[0]`. -/
def deleteItem (rs : RecordStore) (id : Nat) : Option Item × RecordStore :=
  (rs.items.find? (fun it => it.id == id),
   ⟨rs.items.filter (fun it => it.id != id), rs.nextId⟩)

example :
    (updateItem ⟨[⟨1, "a", "d", none, 5, none⟩], 2⟩ 9 1 ⟨some "b", none, none⟩).1 =
      some ⟨1, "b", "d", none, 5, some 9⟩ := by decide

example :
    (updateItem ⟨[⟨1, "a", "d", none, 5, none⟩], 2⟩ 9 1 ⟨some "", none, none⟩).1 = none := by
  decide

/-!
The spec's Record Store has a second backend, an in-process
JSON-document store (Backend A), which is not part of the sources; it
is modelled below from the spec's contract, keeping the state as the
stored sequence of items.
-/

/-- Modelled from the spec: Backend A `insert(name, description,
photoToken|null)` — the document store is missing from the sources;
per the contract it assigns an id and `createdAt`, persists the item in
the stored sequence, and returns the full Item. The freshly assigned
id is a parameter (the spec leaves its generation scheme to the
backend). -/
def docInsert (items : List Item) (freshId now : Nat) (name description : String)
    (photo : Option String) : Item × List Item :=
  let it : Item := ⟨freshId, name, description, photo, now, none⟩
  (it, items ++ [it])

/-- Modelled from the spec: Backend A `listAll()` — returns the items
ordered newest-created first. -/
def docListAll (items : List Item) : List Item :=
  sortByCreatedDesc items

/-- Modelled from the spec: Backend A `getById(id)` — the matching
Item, or not-found. -/
def docGetById (items : List Item) (id : Nat) : Option Item :=
  items.find? (fun it => it.id == id)

/-- Modelled from the spec: the effect of Backend A's `update` on one
item — applies exactly the fields present in the partial update and
sets `updatedAt`. -/
def applyPresentPatch (p : ItemPatch) (now : Nat) (it : Item) : Item :=
  { it with
    name := p.name.getD it.name
    description := p.description.getD it.description
    photo := match p.photo with
      | some v => some v
      | none => it.photo
    updatedAt := some now }

/-- Modelled from the spec: Backend A `update(id, partialFields)` — an
empty partial is a no-op returning the `null`/no-update signal; a
missing id is not-found; otherwise exactly the present fields are
applied and `updatedAt` is set. -/
def docUpdate (items : List Item) (now id : Nat) (p : ItemPatch) :
    Option Item × List Item :=
  if p.name.isNone && p.description.isNone && p.photo.isNone then (none, items)
  else match items.find? (fun it => it.id == id) with
    | none => (none, items)
    | some it =>
      (some (applyPresentPatch p now it),
       items.map (fun x => if x.id == id then applyPresentPatch p now x else x))

/-- Modelled from the spec: Backend A `delete(id)` — removes and
returns the deleted record, or not-found. -/
def docDelete (items : List Item) (id : Nat) : Option Item × List Item :=
  (items.find? (fun it => it.id == id),
   items.filter (fun it => it.id != id))

/-!
HTTP layer. A handler's outcome is a status code and a JSON body; the
combined mutable state is the record store together with the uploads
directory.
-/

/-- The JSON bodies the modelled handlers produce. -/
inductive RespBody where
  /-- An error object `error: message`. -/
  | err (msg : String)
  /-- A single item row. -/
  | item (it : Item)
  /-- The body of `res.json(updated)` where `updated` may be
  `undefined`: `PUT /inventory/:id/photo` sends `updateItem`'s result
  without a truthiness check. -/
  | itemOpt (it : Option Item)
  /-- The delete acknowledgement `deleted: id`. -/
  | deleted (id : Nat)
deriving DecidableEq, Repr

/-- An HTTP response: status code and JSON body. -/
structure HResp where
  status : Nat
  body : RespBody
deriving DecidableEq, Repr

/-- The full mutable state a request touches: the `items` table and
the filenames present in the uploads directory. -/
structure SysState where
  rs : RecordStore
  blobs : List String
deriving DecidableEq, Repr

/-- `fs.unlinkSync` on a file of the uploads directory: the name is no
longer present afterwards. -/
def unlinkBlob (blobs : List String) (tok : String) : List String :=
  blobs.filter (fun b => b ≠ tok)

/-- The `name` validation of `POST /register`:
`!inventory_name || inventory_name.trim() === ""`. A string trims to
the empty string exactly when every character is whitespace, which is
how the second test is rendered here. -/
def regNameBad : Option String → Bool
  | none => true
  | some nm => nm == "" || nm.data.all Char.isWhitespace

/-- `POST /register`: multer first writes the uploaded file (when a
file part is present) into the uploads directory under its generated
token; the handler then validates `inventory_name`, unlinking the
just-written file and answering 400 when validation fails, and
otherwise inserts the record (photo = the file's basename, i.e. its
token) and answers 201 with the saved row. -/
def postRegister (s : SysState) (now : Nat) (invName description : Option String)
    (file : Option String) : HResp × SysState :=
  let s0 : SysState := match file with
    | some tok => ⟨s.rs, tok :: s.blobs⟩
    | none => s
  if regNameBad invName then
    let s1 : SysState := match file with
      | some tok => ⟨s0.rs, unlinkBlob s0.blobs tok⟩
      | none => s0
    (⟨400, .err "inventory_name is required"⟩, s1)
  else
    let de := if optTruthy description then description.getD "" else ""
    let (saved, rs1) := addItem s0.rs now (invName.getD "") de file
    (⟨201, .item saved⟩, ⟨rs1, s0.blobs⟩)

/-- `PUT /inventory/:id`: passes the request body straight to
`updateItem`; 404 when that returns `null`/no row, else 200 with the
updated row. -/
def putInventoryId (s : SysState) (now : Nat) (id : Nat) (body : ItemPatch) :
    HResp × SysState :=
  let (updated, rs1) := updateItem s.rs now id body
  match updated with
  | none => (⟨404, .err "Not found or nothing to update"⟩, ⟨rs1, s.blobs⟩)
  | some it => (⟨200, .item it⟩, ⟨rs1, s.blobs⟩)

/-- `DELETE /inventory/:id`: fetch the item (404 if absent); if its
photo field is truthy and the file exists, unlink it; delete the row
and answer 200 with the deleted id (a missing returned row would throw
and surface as 500). -/
def deleteInventoryId (s : SysState) (id : Nat) : HResp × SysState :=
  match getItemById s.rs id with
  | none => (⟨404, .err "Not found"⟩, s)
  | some it =>
    let blobs1 := match it.photo with
      | some tok =>
        if tok ≠ "" then
          (if s.blobs.contains tok then unlinkBlob s.blobs tok else s.blobs)
        else s.blobs
      | none => s.blobs
    let (del, rs1) := deleteItem s.rs id
    match del with
    | some d => (⟨200, .deleted d.id⟩, ⟨rs1, blobs1⟩)
    | none => (⟨500, .err "Internal server error"⟩, ⟨rs1, blobs1⟩)

example :
    (postRegister ⟨⟨[], 1⟩, []⟩ 7 (some "Widget") none none).1 =
      ⟨201, .item ⟨1, "Widget", "", none, 7, none⟩⟩ := by decide

example :
    postRegister ⟨⟨[], 1⟩, ["x"]⟩ 7 none (some "d") (some "t") =
      (⟨400, .err "inventory_name is required"⟩, ⟨⟨[], 1⟩, ["x"]⟩) := by decide

/-- The observable effects of a `PUT /inventory/:id/photo` execution,
in the order they are performed. -/
inductive Ev where
  /-- Multer writes the uploaded file under its generated token. -/
  | writeBlob (tok : String)
  /-- The handler's `getItemById` existence check. -/
  | checkExists (id : Nat)
  /-- An `fs.unlinkSync` of a file of the uploads directory. -/
  | unlinkEv (tok : String)
  /-- The `updateItem` call that points the record at the new token. -/
  | updateRecord (id : Nat)
deriving DecidableEq, Repr

/-- `PUT /inventory/:id/photo`, run to completion: multer stores the
uploaded file first (when a file part is present), then the handler
checks the item exists (unlinking the fresh upload and answering 404
if not), answers 400 if no file part was sent, unlinks the previous
photo file if the record references one that exists, and finally
updates the record to the new token, answering 200 with `updateItem`'s
result. Returns the response, the final state, and the ordered list of
effects. -/
def putInventoryIdPhotoRun (s : SysState) (now : Nat) (id : Nat)
    (file : Option String) : HResp × SysState × List Ev :=
  match file with
  | none =>
    match getItemById s.rs id with
    | none => (⟨404, .err "Not found"⟩, s, [.checkExists id])
    | some _ => (⟨400, .err "photo file is required"⟩, s, [.checkExists id])
  | some tok =>
    let s0 : SysState := ⟨s.rs, tok :: s.blobs⟩
    match getItemById s0.rs id with
    | none =>
      (⟨404, .err "Not found"⟩, ⟨s0.rs, unlinkBlob s0.blobs tok⟩,
       [.writeBlob tok, .checkExists id, .unlinkEv tok])
    | some it =>
      let old : Option String := match it.photo with
        | some o => if o ≠ "" && s0.blobs.contains o then some o else none
        | none => none
      let blobs1 := match old with
        | some o => unlinkBlob s0.blobs o
        | none => s0.blobs
      let (upd, rs1) := updateItem s0.rs now id ⟨none, none, some tok⟩
      (⟨200, .itemOpt upd⟩, ⟨rs1, blobs1⟩,
       [.writeBlob tok, .checkExists id] ++
         (match old with | some o => [.unlinkEv o] | none => []) ++
         [.updateRecord id])

/-- The response and final state of `PUT /inventory/:id/photo`. -/
def putInventoryIdPhoto (s : SysState) (now : Nat) (id : Nat)
    (file : Option String) : HResp × SysState :=
  ((putInventoryIdPhotoRun s now id file).1, (putInventoryIdPhotoRun s now id file).2.1)

/-- The ordered effect trace of `PUT /inventory/:id/photo`. -/
def putPhotoTrace (s : SysState) (now : Nat) (id : Nat)
    (file : Option String) : List Ev :=
  (putInventoryIdPhotoRun s now id file).2.2

/-- The derived photo link
`protocol://host/inventory/id/photo`. -/
def photoUrl (proto hostHdr : String) (id : Nat) : String :=
  proto ++ "://" ++ hostHdr ++ "/inventory/" ++ toString id ++ "/photo"

/-- The JSON bodies of the search endpoints: an error object, or the
found item spread together with its `photo_url` field. -/
inductive SearchBody where
  /-- An error object `error: message`. -/
  | err (msg : String)
  /-- The found item with the derived `photo_url` (or `null`). -/
  | found (it : Item) (photo_url : Option String)
deriving DecidableEq, Repr

/-- `GET /search`: reads `id` and `includePhoto` from the query
string; 400 when `id` is falsy; the id string is handed to
`WHERE id=$1` against the integer column, so a non-numeric id makes
the query throw (500); otherwise 404 when no row matches, else 200
with the item and a `photo_url` that is non-null exactly when
`includePhoto` and the item's photo are both truthy. -/
def searchGet (rs : RecordStore) (proto hostHdr : String)
    (id includePhoto : Option String) : Nat × SearchBody :=
  if optTruthy id then
    match (id.getD "").toNat? with
    | none => (500, .err "Internal server error")
    | some n =>
      match getItemById rs n with
      | none => (404, .err "Not found")
      | some it =>
        (200, .found it
          (if optTruthy includePhoto && optTruthy it.photo then
            some (photoUrl proto hostHdr it.id)
          else none))
  else (400, .err "id is required")

/-- `POST /search`: identical logic to `GET /search`, with `id` and
`includePhoto` read from the JSON body instead of the query string. -/
def searchPost (rs : RecordStore) (proto hostHdr : String)
    (id includePhoto : Option String) : Nat × SearchBody :=
  if optTruthy id then
    match (id.getD "").toNat? with
    | none => (500, .err "Internal server error")
    | some n =>
      match getItemById rs n with
      | none => (404, .err "Not found")
      | some it =>
        (200, .found it
          (if optTruthy includePhoto && optTruthy it.photo then
            some (photoUrl proto hostHdr it.id)
          else none))
  else (400, .err "id is required")

/-- The multer `diskStorage` filename callback:
`Date.now() + "-" + Math.random().toString(36).slice(2, 8) + "-" + file.originalname`. -/
def multerFilename (now : Nat) (rand : String) (originalname : String) : String :=
  toString now ++ "-" ++ rand ++ "-" ++ originalname

example :
    multerFilename 1700000000000 "k3j9qa" "cat.jpg" = "1700000000000-k3j9qa-cat.jpg" := by
  decide

/-- The '/'-separated components of a path string. -/
def pathComponents (s : String) : List String :=
  (s.data.foldr
    (fun c acc =>
      if c = '/' then [] :: acc
      else match acc with
        | h :: t => (c :: h) :: t
        | [] => [[c]])
    [[]]).map List.asString

example : pathComponents "a/../b" = ["a", "..", "b"] := by decide

/-- C10: the GET and POST `/search` handlers are behaviourally
equivalent — for every store state, protocol, host header, `id` and
`includePhoto` value, they return the same status code and the same
body, with the same gating of `photo_url`. -/
theorem c10_search_get_post_equiv :
    ∀ (rs : RecordStore) (proto hostHdr : String) (id includePhoto : Option String),
      searchGet rs proto hostHdr id includePhoto =
        searchPost rs proto hostHdr id includePhoto :=
  fun _ _ _ _ _ => rfl

/-- C6: on an existing id, `updateItem` with an empty partial (no
name, no description, no photo) returns the `null` no-update signal
and leaves the store — `updatedAt` included — untouched. -/
theorem c6_empty_patch_noop (rs : RecordStore) (now id : Nat) (it : Item)
    (h : getItemById rs id = some it) :
    updateItem rs now id ⟨none, none, none⟩ = (none, rs) := by
  simp [updateItem, optTruthy]

theorem c6_witness :
    getItemById ⟨[⟨1, "a", "d", none, 5, none⟩], 2⟩ 1 = some ⟨1, "a", "d", none, 5, none⟩ ∧
    updateItem ⟨[⟨1, "a", "d", none, 5, none⟩], 2⟩ 9 1 ⟨none, none, none⟩ =
      (none, ⟨[⟨1, "a", "d", none, 5, none⟩], 2⟩) :=
  ⟨by decide, c6_empty_patch_noop _ 9 1 ⟨1, "a", "d", none, 5, none⟩ (by decide)⟩

/-- C8: `PUT /inventory/:id/photo` on an existing item with no file
part answers 400 with `error: "photo file is required"` and leaves the
whole state — record fields, `updatedAt`, and the uploads directory —
unchanged. -/
theorem c8_no_file_400 (s : SysState) (now id : Nat) (it : Item)
    (h : getItemById s.rs id = some it) :
    putInventoryIdPhoto s now id none = (⟨400, .err "photo file is required"⟩, s) := by
  simp [putInventoryIdPhoto, putInventoryIdPhotoRun, h]

theorem c8_witness :
    getItemById (⟨⟨[⟨1, "a", "d", some "p", 5, none⟩], 2⟩, ["p"]⟩ : SysState).rs 1 =
      some ⟨1, "a", "d", some "p", 5, none⟩ ∧
    putInventoryIdPhoto ⟨⟨[⟨1, "a", "d", some "p", 5, none⟩], 2⟩, ["p"]⟩ 9 1 none =
      (⟨400, .err "photo file is required"⟩, ⟨⟨[⟨1, "a", "d", some "p", 5, none⟩], 2⟩, ["p"]⟩) :=
  ⟨by decide, c8_no_file_400 _ 9 1 ⟨1, "a", "d", some "p", 5, none⟩ (by decide)⟩

/-- C2: `POST /register` with a missing or blank `inventory_name`
answers 400, inserts no record, and leaves the uploads directory free
of any file written for the request: the state after the request is
exactly the state before it. -/
theorem c2_bad_name_orphan_free (s : SysState) (now : Nat)
    (invName description file : Option String)
    (hname : regNameBad invName = true)
    (hfresh : ∀ tok, file = some tok → tok ∉ s.blobs) :
    postRegister s now invName description file =
      (⟨400, .err "inventory_name is required"⟩, s) := by
  cases file with
  | none => simp [postRegister, hname]
  | some tok =>
    have hmem : tok ∉ s.blobs := hfresh tok rfl
    simp only [postRegister, hname, if_pos, unlinkBlob]
    have hhead : ¬ (tok ≠ tok) := fun h => h rfl
    rw [List.filter_cons_of_neg (by simp)]
    rw [List.filter_eq_self.mpr (fun b hb => by
      simp only [ne_eq, decide_eq_true_eq]
      exact fun e => hmem (e ▸ hb))]

/-- Patching a row never changes its id. -/
theorem applyTruthyPatch_id (p : ItemPatch) (now : Nat) (it : Item) :
    (applyTruthyPatch p now it).id = it.id := rfl

/-- The row `getItemById` sees after `updateItem`: the previously
found row, patched whenever the update actually ran. -/
theorem getItemById_updateItem (rs : RecordStore) (now id : Nat) (p : ItemPatch)
    (it : Item) (h : getItemById rs id = some it) :
    getItemById (updateItem rs now id p).2 id =
      some (if optTruthy p.name || optTruthy p.description || optTruthy p.photo
            then applyTruthyPatch p now it else it) := by
  by_cases hb : (optTruthy p.name || optTruthy p.description || optTruthy p.photo) = true
  · have hfun : ((fun x : Item => x.id == id) ∘
        fun x : Item => if x.id == id then applyTruthyPatch p now x else x) =
        fun x : Item => x.id == id := by
      funext x
      by_cases hx : (x.id == id) = true <;> simp [Function.comp, hx, applyTruthyPatch_id]
    have hit : it.id = id := by simpa using List.find?_some h
    unfold getItemById at h ⊢
    simp only [updateItem, hb, if_pos, List.find?_map, hfun, h, Option.map_some]
    simp [hb, hit]
  · have hb' : (optTruthy p.name || optTruthy p.description || optTruthy p.photo) = false := by
      simpa using hb
    simp [updateItem, hb', h]

/-- C1 (counterexample): `PUT /inventory/:id` is not restricted to
name/description — a request body carrying a `photo` field changes the
stored photo reference. -/
theorem c1_counterexample :
    (getItemById (putInventoryId ⟨⟨[⟨1, "a", "d", some "old.jpg", 5, none⟩], 2⟩, ["old.jpg"]⟩
        9 1 ⟨none, none, some "new.jpg"⟩).2.rs 1).map Item.photo ≠
      some (some "old.jpg") := by decide

/-- C1 (amended): `PUT /inventory/:id` forwards the whole request body
to `updateItem`, so the photo reference is preserved exactly for
bodies whose `photo` field is absent or empty (in particular for the
documented name/description bodies): for every existing item and every
such body, the item's photo after the request equals its photo before
it. -/
theorem c1_amended_photo_frame (s : SysState) (now id : Nat) (body : ItemPatch)
    (it : Item) (hb : optTruthy body.photo = false)
    (h : getItemById s.rs id = some it) :
    (getItemById (putInventoryId s now id body).2.rs id).map Item.photo =
      some it.photo := by
  have hrs : (putInventoryId s now id body).2.rs = (updateItem s.rs now id body).2 := by
    rcases hu : updateItem s.rs now id body with ⟨u, rs1⟩
    cases u <;> simp [putInventoryId, hu]
  rw [hrs, getItemById_updateItem s.rs now id body it h]
  by_cases hc : (optTruthy body.name || optTruthy body.description || optTruthy body.photo) = true
  · simp [hc, applyTruthyPatch, hb]
    split <;> rfl
  · simp at hc
    simp [hc]

theorem c1_witness :
    optTruthy (⟨some "b", none, none⟩ : ItemPatch).photo = false ∧
    getItemById (⟨⟨[⟨1, "a", "d", some "p.jpg", 5, none⟩], 2⟩, ["p.jpg"]⟩ : SysState).rs 1 =
      some ⟨1, "a", "d", some "p.jpg", 5, none⟩ ∧
    (getItemById (putInventoryId ⟨⟨[⟨1, "a", "d", some "p.jpg", 5, none⟩], 2⟩, ["p.jpg"]⟩ 9 1
        ⟨some "b", none, none⟩).2.rs 1).map Item.photo = some (some "p.jpg") :=
  ⟨by decide, by decide,
   c1_amended_photo_frame _ 9 1 ⟨some "b", none, none⟩ ⟨1, "a", "d", some "p.jpg", 5, none⟩
     (by decide) (by decide)⟩

/-- C5 (counterexample): a field that is present with an empty-string
value is skipped, not applied — updating an existing item with
`name: ""` leaves the stored name unchanged (the claim would require
the stored name to become `""`). -/
theorem c5_counterexample :
    (getItemById (updateItem ⟨[⟨1, "orig", "d", none, 5, none⟩], 2⟩ 9 1
        ⟨some "", none, none⟩).2 1).map Item.name ≠ some "" := by decide

/-- C5 (amended): on an existing id, `updateItem` applies exactly the
fields supplied with non-empty values — each independently optional —
leaves absent fields unchanged and sets `updatedAt`; a field supplied
as the empty string is skipped like an absent one (the update runs
when at least one supplied field is truthy). -/
theorem c5_amended_truthy_fields (rs : RecordStore) (now id : Nat) (p : ItemPatch)
    (it : Item) (h : getItemById rs id = some it)
    (hne : (optTruthy p.name || optTruthy p.description || optTruthy p.photo) = true) :
    ∃ it', (updateItem rs now id p).1 = some it' ∧
      getItemById (updateItem rs now id p).2 id = some it' ∧
      it'.id = it.id ∧ it'.createdAt = it.createdAt ∧ it'.updatedAt = some now ∧
      (p.name = none ∨ p.name = some "" → it'.name = it.name) ∧
      (∀ v, p.name = some v → v ≠ "" → it'.name = v) ∧
      (p.description = none ∨ p.description = some "" → it'.description = it.description) ∧
      (∀ v, p.description = some v → v ≠ "" → it'.description = v) ∧
      (p.photo = none ∨ p.photo = some "" → it'.photo = it.photo) ∧
      (∀ v, p.photo = some v → v ≠ "" → it'.photo = some v) := by
  refine ⟨applyTruthyPatch p now it, ?_, ?_, rfl, rfl, rfl, ?_, ?_, ?_, ?_, ?_, ?_⟩
  · unfold getItemById at h
    simp [updateItem, hne, h]
  · rw [getItemById_updateItem rs now id p it h]
    simp [hne]
  · rintro (hn | hn) <;> simp [applyTruthyPatch, hn, optTruthy]
  · intro v hv hvne
    simp [applyTruthyPatch, hv, optTruthy, hvne]
  · rintro (hd | hd) <;> simp [applyTruthyPatch, hd, optTruthy]
  · intro v hv hvne
    simp [applyTruthyPatch, hv, optTruthy, hvne]
  · rintro (hp | hp) <;> simp [applyTruthyPatch, hp, optTruthy]
  · intro v hv hvne
    simp [applyTruthyPatch, hv, optTruthy, hvne]

theorem c5_witness :
    getItemById ⟨[⟨1, "orig", "da", none, 5, none⟩], 2⟩ 1 =
      some ⟨1, "orig", "da", none, 5, none⟩ ∧
    (optTruthy (⟨some "nb", none, none⟩ : ItemPatch).name ||
      optTruthy (⟨some "nb", none, none⟩ : ItemPatch).description ||
      optTruthy (⟨some "nb", none, none⟩ : ItemPatch).photo) = true ∧
    ∃ it', (updateItem ⟨[⟨1, "orig", "da", none, 5, none⟩], 2⟩ 9 1 ⟨some "nb", none, none⟩).1 =
        some it' ∧
      getItemById (updateItem ⟨[⟨1, "orig", "da", none, 5, none⟩], 2⟩ 9 1
        ⟨some "nb", none, none⟩).2 1 = some it' ∧
      it'.id = (⟨1, "orig", "da", none, 5, none⟩ : Item).id ∧
      it'.createdAt = (⟨1, "orig", "da", none, 5, none⟩ : Item).createdAt ∧
      it'.updatedAt = some 9 ∧
      ((⟨some "nb", none, none⟩ : ItemPatch).name = none ∨
        (⟨some "nb", none, none⟩ : ItemPatch).name = some "" →
        it'.name = (⟨1, "orig", "da", none, 5, none⟩ : Item).name) ∧
      (∀ v, (⟨some "nb", none, none⟩ : ItemPatch).name = some v → v ≠ "" → it'.name = v) ∧
      ((⟨some "nb", none, none⟩ : ItemPatch).description = none ∨
        (⟨some "nb", none, none⟩ : ItemPatch).description = some "" →
        it'.description = (⟨1, "orig", "da", none, 5, none⟩ : Item).description) ∧
      (∀ v, (⟨some "nb", none, none⟩ : ItemPatch).description = some v → v ≠ "" →
        it'.description = v) ∧
      ((⟨some "nb", none, none⟩ : ItemPatch).photo = none ∨
        (⟨some "nb", none, none⟩ : ItemPatch).photo = some "" →
        it'.photo = (⟨1, "orig", "da", none, 5, none⟩ : Item).photo) ∧
      (∀ v, (⟨some "nb", none, none⟩ : ItemPatch).photo = some v → v ≠ "" →
        it'.photo = some v) :=
  ⟨by decide, by decide,
   c5_amended_truthy_fields ⟨[⟨1, "orig", "da", none, 5, none⟩], 2⟩ 9 1
     ⟨some "nb", none, none⟩ ⟨1, "orig", "da", none, 5, none⟩ (by decide) (by decide)⟩

/-- C3: deleting an existing item answers 200 with the deleted id,
removes the record (a subsequent fetch of the id finds nothing), and
removes the referenced photo file — whether or not it was present in
the uploads directory (an absent blob is a no-op). Photo references
are never the empty string (tokens are generated non-empty), which the
hypothesis records. -/
theorem c3_delete_removes (s : SysState) (id : Nat) (it : Item)
    (h : getItemById s.rs id = some it) (hph : it.photo ≠ some "") :
    (deleteInventoryId s id).1 = ⟨200, .deleted id⟩ ∧
    getItemById (deleteInventoryId s id).2.rs id = none ∧
    ∀ tok, it.photo = some tok → tok ∉ (deleteInventoryId s id).2.blobs := by
  have hit : it.id = id := by simpa using List.find?_some h
  have hfind : s.rs.items.find? (fun x => x.id == id) = some it := h
  refine ⟨?_, ?_, ?_⟩
  · simp [deleteInventoryId, h, deleteItem, hfind, hit]
  · simp only [deleteInventoryId, h, deleteItem, hfind]
    simp only [getItemById]
    rw [List.find?_eq_none]
    intro x hx
    have := (List.mem_filter.mp hx).2
    simp at this ⊢
    exact this
  · intro tok htok
    have htokne : tok ≠ "" := by
      intro e
      exact hph (by rw [htok, e])
    simp only [deleteInventoryId, h, deleteItem, hfind, htok]
    by_cases hmem : tok ∈ s.blobs <;>
      simp [htokne, hmem, unlinkBlob, List.mem_filter]

theorem c3_witness :
    getItemById (⟨⟨[⟨1, "a", "d", some "p.jpg", 5, none⟩], 2⟩, ["p.jpg"]⟩ : SysState).rs 1 =
      some ⟨1, "a", "d", some "p.jpg", 5, none⟩ ∧
    (⟨1, "a", "d", some "p.jpg", 5, none⟩ : Item).photo ≠ some "" ∧
    ((deleteInventoryId ⟨⟨[⟨1, "a", "d", some "p.jpg", 5, none⟩], 2⟩, ["p.jpg"]⟩ 1).1 =
        ⟨200, .deleted 1⟩ ∧
      getItemById (deleteInventoryId ⟨⟨[⟨1, "a", "d", some "p.jpg", 5, none⟩], 2⟩,
        ["p.jpg"]⟩ 1).2.rs 1 = none ∧
      ∀ tok, (⟨1, "a", "d", some "p.jpg", 5, none⟩ : Item).photo = some tok →
        tok ∉ (deleteInventoryId ⟨⟨[⟨1, "a", "d", some "p.jpg", 5, none⟩], 2⟩,
          ["p.jpg"]⟩ 1).2.blobs) :=
  ⟨by decide, by decide,
   c3_delete_removes ⟨⟨[⟨1, "a", "d", some "p.jpg", 5, none⟩], 2⟩, ["p.jpg"]⟩ 1
     ⟨1, "a", "d", some "p.jpg", 5, none⟩ (by decide) (by decide)⟩

/-- C4 (counterexample): the effects of `PUT /inventory/:id/photo` do
not occur in the claimed order check-existence → write-new-blob →
delete-old-blob → update-record: on an existing item with an old
photo, the actual trace starts with the blob write (the multer
middleware stores the upload before the handler's existence check). -/
theorem c4_counterexample :
    putPhotoTrace ⟨⟨[⟨1, "a", "d", some "oldtok", 5, none⟩], 2⟩, ["oldtok"]⟩ 9 1
        (some "newtok") ≠
      [.checkExists 1, .writeBlob "newtok", .unlinkEv "oldtok", .updateRecord 1] := by
  decide

/-- C4 (amended): the effects of `PUT /inventory/:id/photo` occur in
the order write-new-blob (performed by the upload middleware before
the handler runs) → check-existence → delete-old-blob → update-record;
the old blob is still deleted only after the existence check has
succeeded, and the record update comes last. -/
theorem c4_amended_order (s : SysState) (now id : Nat) (tok old : String)
    (it : Item) (h : getItemById s.rs id = some it)
    (hold : it.photo = some old) (holdne : old ≠ "") (holdmem : old ∈ s.blobs) :
    putPhotoTrace s now id (some tok) =
      [.writeBlob tok, .checkExists id, .unlinkEv old, .updateRecord id] := by
  simp [putPhotoTrace, putInventoryIdPhotoRun, h, hold, holdne, holdmem]

theorem c4_witness :
    getItemById (⟨⟨[⟨1, "a", "d", some "oldtok", 5, none⟩], 2⟩, ["oldtok"]⟩ : SysState).rs 1 =
      some ⟨1, "a", "d", some "oldtok", 5, none⟩ ∧
    (⟨1, "a", "d", some "oldtok", 5, none⟩ : Item).photo = some "oldtok" ∧
    "oldtok" ≠ "" ∧
    "oldtok" ∈ (⟨⟨[⟨1, "a", "d", some "oldtok", 5, none⟩], 2⟩, ["oldtok"]⟩ : SysState).blobs ∧
    putPhotoTrace ⟨⟨[⟨1, "a", "d", some "oldtok", 5, none⟩], 2⟩, ["oldtok"]⟩ 9 1
        (some "newtok") =
      [.writeBlob "newtok", .checkExists 1, .unlinkEv "oldtok", .updateRecord 1] :=
  ⟨by decide, by decide, by decide, by decide,
   c4_amended_order ⟨⟨[⟨1, "a", "d", some "oldtok", 5, none⟩], 2⟩, ["oldtok"]⟩ 9 1
     "newtok" "oldtok" ⟨1, "a", "d", some "oldtok", 5, none⟩ (by decide) (by decide)
     (by decide) (by decide)⟩

/-- When every supplied field of a patch is non-empty, the
present-fields semantics and the truthy-fields semantics patch a row
identically. -/
theorem applyPresent_eq_applyTruthy (p : ItemPatch) (now : Nat)
    (hn : p.name ≠ some "") (hd : p.description ≠ some "") (hp : p.photo ≠ some "") :
    applyPresentPatch p now = applyTruthyPatch p now := by
  funext it
  rcases p with ⟨pn, pd, pp⟩
  cases pn <;> cases pd <;> cases pp <;>
    simp_all [applyPresentPatch, applyTruthyPatch, optTruthy]

/-- Patching only the rows of a matching id is the identity when no
row matches. -/
theorem map_patch_eq_self (items : List Item) (id : Nat) (f : Item → Item)
    (h : items.find? (fun x => x.id == id) = none) :
    items.map (fun x => if x.id = id then f x else x) = items := by
  have hall := List.find?_eq_none.mp h
  have h2 : items.map (fun x => if x.id = id then f x else x) = items.map (fun x => x) :=
    List.map_congr_left (fun a ha => by
      have := hall a ha
      simp at this
      simp [this])
  simpa using h2

/-- C9 (counterexample): the two Record Store backends do not have
identical semantics on every input — on an update whose `name` field
is supplied as the empty string, the document/contract semantics
applies it while the relational `updateItem` skips it and reports
nothing to update. -/
theorem c9_counterexample :
    docUpdate [⟨1, "orig", "d", none, 5, none⟩] 9 1 ⟨some "", none, none⟩ ≠
      ((updateItem ⟨[⟨1, "orig", "d", none, 5, none⟩], 2⟩ 9 1 ⟨some "", none, none⟩).1,
       (updateItem ⟨[⟨1, "orig", "d", none, 5, none⟩], 2⟩ 9 1 ⟨some "", none, none⟩).2.items) := by
  decide

/-- C9 (amended): the two backends have identical semantics — the same
returned Item, ordering, and not-found behaviour — for `insert` (given
the document backend assigns the same fresh id the serial sequence
would), `listAll`, `getById` and `delete` on every input, and for
`update` on every partial whose supplied fields are non-empty; they
diverge only on partials supplying an empty-string field, which the
relational backend's truthiness test skips. -/
theorem c9_amended_backend_equiv (rs : RecordStore) (now id freshId : Nat)
    (nm de : String) (ph : Option String) (p : ItemPatch)
    (hn : p.name ≠ some "") (hd : p.description ≠ some "") (hp : p.photo ≠ some "")
    (hid : freshId = rs.nextId) :
    docInsert rs.items freshId now nm de ph =
      ((addItem rs now nm de ph).1, (addItem rs now nm de ph).2.items) ∧
    docListAll rs.items = getItems rs ∧
    docGetById rs.items id = getItemById rs id ∧
    docUpdate rs.items now id p =
      ((updateItem rs now id p).1, (updateItem rs now id p).2.items) ∧
    docDelete rs.items id = ((deleteItem rs id).1, (deleteItem rs id).2.items) := by
  refine ⟨by subst hid; rfl, rfl, rfl, ?_, rfl⟩
  have hpatch := applyPresent_eq_applyTruthy p now hn hd hp
  have hcond : (p.name.isNone && p.description.isNone && p.photo.isNone) =
      !(optTruthy p.name || optTruthy p.description || optTruthy p.photo) := by
    rcases p with ⟨pn, pd, pp⟩
    cases pn <;> cases pd <;> cases pp <;> simp_all [optTruthy]
  by_cases hb : (optTruthy p.name || optTruthy p.description || optTruthy p.photo) = true
  · have hempty : (p.name.isNone && p.description.isNone && p.photo.isNone) = false := by
      rw [hcond, hb]
      rfl
    rcases hf : rs.items.find? (fun x => x.id == id) with _ | it
    · simp [docUpdate, updateItem, hempty, hb, hf, map_patch_eq_self rs.items id _ hf]
    · simp [docUpdate, updateItem, hempty, hb, hf, hpatch]
  · have hb' : (optTruthy p.name || optTruthy p.description || optTruthy p.photo) = false := by
      simpa using hb
    have hempty : (p.name.isNone && p.description.isNone && p.photo.isNone) = true := by
      rw [hcond, hb']
      rfl
    simp [docUpdate, updateItem, hempty, hb']

theorem c9_witness :
    ((⟨some "nb", none, none⟩ : ItemPatch).name ≠ some "") ∧
    ((⟨some "nb", none, none⟩ : ItemPatch).description ≠ some "") ∧
    ((⟨some "nb", none, none⟩ : ItemPatch).photo ≠ some "") ∧
    (2 : Nat) = (⟨[⟨1, "orig", "d", none, 5, none⟩], 2⟩ : RecordStore).nextId ∧
    (docInsert [⟨1, "orig", "d", none, 5, none⟩] 2 9 "nm" "de" none =
      ((addItem ⟨[⟨1, "orig", "d", none, 5, none⟩], 2⟩ 9 "nm" "de" none).1,
       (addItem ⟨[⟨1, "orig", "d", none, 5, none⟩], 2⟩ 9 "nm" "de" none).2.items) ∧
    docListAll [⟨1, "orig", "d", none, 5, none⟩] =
      getItems ⟨[⟨1, "orig", "d", none, 5, none⟩], 2⟩ ∧
    docGetById [⟨1, "orig", "d", none, 5, none⟩] 1 =
      getItemById ⟨[⟨1, "orig", "d", none, 5, none⟩], 2⟩ 1 ∧
    docUpdate [⟨1, "orig", "d", none, 5, none⟩] 9 1 ⟨some "nb", none, none⟩ =
      ((updateItem ⟨[⟨1, "orig", "d", none, 5, none⟩], 2⟩ 9 1 ⟨some "nb", none, none⟩).1,
       (updateItem ⟨[⟨1, "orig", "d", none, 5, none⟩], 2⟩ 9 1 ⟨some "nb", none, none⟩).2.items) ∧
    docDelete [⟨1, "orig", "d", none, 5, none⟩] 1 =
      ((deleteItem ⟨[⟨1, "orig", "d", none, 5, none⟩], 2⟩ 1).1,
       (deleteItem ⟨[⟨1, "orig", "d", none, 5, none⟩], 2⟩ 1).2.items)) :=
  ⟨by decide, by decide, by decide, by decide,
   c9_amended_backend_equiv ⟨[⟨1, "orig", "d", none, 5, none⟩], 2⟩ 9 1 2 "nm" "de" none
     ⟨some "nb", none, none⟩ (by decide) (by decide) (by decide) (by decide)⟩

/-- No digit character is a dash. -/
theorem digitChar_ne_dash (n : Nat) : Nat.digitChar n ≠ '-' := by
  rcases Nat.lt_or_ge n 16 with h | h
  · interval_cases n <;> decide
  · unfold Nat.digitChar
    repeat rw [if_neg (by omega)]
    decide

/-- The accumulator of `Nat.toDigitsCore` is a suffix of the output. -/
theorem toDigitsCore_append (b : Nat) :
    ∀ (fuel n : Nat) (ds : List Char),
      Nat.toDigitsCore b fuel n ds = Nat.toDigitsCore b fuel n [] ++ ds := by
  intro fuel
  induction fuel with
  | zero =>
    intro n ds
    simp [Nat.toDigitsCore]
  | succ fuel ih =>
    intro n ds
    unfold Nat.toDigitsCore
    by_cases h : n / b = 0
    · simp [h]
    · simp only [h, if_neg, if_false]
      rw [ih (n / b) (Nat.digitChar (n % b) :: ds), ih (n / b) [Nat.digitChar (n % b)]]
      simp

/-- Reading a digit string most-significant-first, on top of an
accumulated value. -/
def decDigits (acc : Nat) (l : List Char) : Nat :=
  l.foldl (fun a c => a * 10 + (c.toNat - 48)) acc

theorem decDigits_append (acc : Nat) (l1 l2 : List Char) :
    decDigits acc (l1 ++ l2) = decDigits (decDigits acc l1) l2 := by
  simp [decDigits]

theorem decDigits_cons (acc : Nat) (c : Char) (cs : List Char) :
    decDigits acc (c :: cs) = decDigits (acc * 10 + (c.toNat - 48)) cs := rfl

theorem decDigits_nil (acc : Nat) : decDigits acc [] = acc := rfl

theorem digitChar_toNat (n : Nat) (h : n < 10) : (Nat.digitChar n).toNat = 48 + n := by
  interval_cases n <;> decide

/-- Decoding the digits `Nat.toDigitsCore` produces recovers the
encoded number. -/
theorem decDigits_toDigitsCore (fuel : Nat) :
    ∀ n, n < fuel → ∀ acc,
      decDigits acc (Nat.toDigitsCore 10 fuel n []) =
        acc * 10 ^ (Nat.toDigitsCore 10 fuel n []).length + n := by
  induction fuel with
  | zero =>
    intro n h
    omega
  | succ fuel ih =>
    intro n h acc
    unfold Nat.toDigitsCore
    by_cases h0 : n / 10 = 0
    · have hdig : (Nat.digitChar (n % 10)).toNat = 48 + n % 10 :=
        digitChar_toNat (n % 10) (Nat.mod_lt _ (by decide))
      simp [h0, decDigits_cons, decDigits_nil, hdig]
      omega
    · simp only [h0, if_neg, if_false]
      rw [toDigitsCore_append 10 fuel (n / 10) [Nat.digitChar (n % 10)]]
      rw [decDigits_append]
      have hpos : 0 < n := by
        rcases Nat.eq_zero_or_pos n with h' | h'
        · exact absurd (by simp [h']) h0
        · exact h'
      have hlt : n / 10 < fuel := by
        have : n / 10 < n := Nat.div_lt_self hpos (by decide)
        omega
      rw [ih (n / 10) hlt acc]
      have hdig : (Nat.digitChar (n % 10)).toNat = 48 + n % 10 :=
        digitChar_toNat (n % 10) (Nat.mod_lt _ (by decide))
      rw [decDigits_cons, decDigits_nil, hdig]
      set L := (Nat.toDigitsCore 10 fuel (n / 10) []).length with hL
      have hsub : 48 + n % 10 - 48 = n % 10 := by omega
      rw [hsub]
      have hlen :
          (Nat.toDigitsCore 10 fuel (n / 10) [] ++ [Nat.digitChar (n % 10)]).length =
            L + 1 := by
        simp [hL]
      rw [hlen, pow_succ]
      have hdm : n / 10 * 10 + n % 10 = n := by omega
      conv_rhs => rw [← hdm]
      ring

theorem decDigits_toDigits (n : Nat) : decDigits 0 (Nat.toDigits 10 n) = n := by
  unfold Nat.toDigits
  rw [decDigits_toDigitsCore (n + 1) n (Nat.lt_succ_self n) 0]
  simp

/-- Distinct numbers have distinct decimal representations. -/
theorem natRepr_inj {a b : Nat} (h : (Nat.repr a).data = (Nat.repr b).data) : a = b := by
  have hd : Nat.toDigits 10 a = Nat.toDigits 10 b := by
    simpa [Nat.repr, List.asString] using h
  rw [← decDigits_toDigits a, ← decDigits_toDigits b, hd]

/-- A decimal representation contains no dash. -/
theorem toDigitsCore_no_dash (fuel : Nat) :
    ∀ (n : Nat) (ds : List Char), '-' ∉ ds → '-' ∉ Nat.toDigitsCore 10 fuel n ds := by
  induction fuel with
  | zero =>
    intro n ds h
    simpa [Nat.toDigitsCore] using h
  | succ fuel ih =>
    intro n ds h
    unfold Nat.toDigitsCore
    by_cases h0 : n / 10 = 0
    · simp only [h0, if_pos]
      intro hc
      rcases List.mem_cons.mp hc with he | he
      · exact digitChar_ne_dash _ he.symm
      · exact h he
    · simp only [h0, if_neg, if_false]
      refine ih (n / 10) _ ?_
      intro hc
      rcases List.mem_cons.mp hc with he | he
      · exact digitChar_ne_dash _ he.symm
      · exact h he

theorem natRepr_no_dash (n : Nat) : '-' ∉ (Nat.repr n).data :=
  toDigitsCore_no_dash (n + 1) n [] (by simp)

/-- Splitting two equal lists at their first occurrence of the
separator. -/
theorem sep_split {a1 a2 b1 b2 : List Char} (h1 : '-' ∉ a1) (h2 : '-' ∉ a2)
    (h : a1 ++ '-' :: b1 = a2 ++ '-' :: b2) : a1 = a2 ∧ b1 = b2 := by
  induction a1 generalizing a2 with
  | nil =>
    cases a2 with
    | nil => simpa using h
    | cons y ys =>
      simp at h
      exact absurd (h.1.symm ▸ List.mem_cons_self y ys) h2
  | cons x xs ih =>
    cases a2 with
    | nil =>
      simp at h
      exact absurd (h.1 ▸ List.mem_cons_self x xs) h1
    | cons y ys =>
      simp only [List.cons_append, List.cons.injEq] at h
      obtain ⟨hxy, ht⟩ := h
      have hr := ih (fun hm => h1 (List.mem_cons_of_mem x hm))
        (fun hm => h2 (List.mem_cons_of_mem y hm)) ht
      exact ⟨by rw [hxy, hr.1], hr.2⟩

/-- C7 (counterexample): the original-name hint is not sanitized — an
upload named `../../../etc/passwd` yields a token that contains `..`
directory-traversal components, contradicting the claimed
sanitization. -/
theorem c7_counterexample :
    (pathComponents (multerFilename 1700000000000 "k3j9qa" "../../../etc/passwd")).contains
      ".." = true := by decide

/-- C7 (amended): a generated token is the current time, a dash, the
random suffix, a dash, and the raw (unsanitized) original-name hint;
since the random suffix (base-36 digits from
`Math.random().toString(36).slice(2, 8)`) contains no dash, two calls
produce the same token only when the time, the random suffix and the
hint all coincide — so a token never collides with one whose
time/randomness pair differs — but the hint is embedded without
sanitization. -/
theorem c7_amended_token_unique (t1 t2 : Nat) (r1 r2 n1 n2 : String)
    (hr1 : '-' ∉ r1.data) (hr2 : '-' ∉ r2.data)
    (heq : multerFilename t1 r1 n1 = multerFilename t2 r2 n2) :
    t1 = t2 ∧ r1 = r2 ∧ n1 = n2 := by
  have hform : ∀ (t : Nat) (r n : String),
      (multerFilename t r n).data =
        (Nat.repr t).data ++ '-' :: (r.data ++ '-' :: n.data) := by
    intro t r n
    show ((Nat.repr t ++ "-" ++ r ++ "-" ++ n).data = _)
    simp [String.data_append]
  have hdata := congrArg String.data heq
  rw [hform, hform] at hdata
  have h1 := sep_split (natRepr_no_dash t1) (natRepr_no_dash t2) hdata
  have ht : t1 = t2 := natRepr_inj h1.1
  have h2 := sep_split hr1 hr2 h1.2
  exact ⟨ht, String.ext h2.1, String.ext h2.2⟩

theorem c7_witness :
    '-' ∉ ("k3j9qa" : String).data ∧
    ((1700000000000 : Nat) = 1700000000000 ∧ ("k3j9qa" : String) = "k3j9qa" ∧
      ("cat.jpg" : String) = "cat.jpg") :=
  ⟨by decide,
   c7_amended_token_unique 1700000000000 1700000000000 "k3j9qa" "k3j9qa" "cat.jpg" "cat.jpg"
     (by decide) (by decide) rfl⟩

theorem c2_witness :
    regNameBad (some " ") = true ∧
    ("t" ∉ (⟨⟨[], 1⟩, ["x"]⟩ : SysState).blobs) ∧
    postRegister ⟨⟨[], 1⟩, ["x"]⟩ 7 (some " ") (some "d") (some "t") =
      (⟨400, .err "inventory_name is required"⟩, ⟨⟨[], 1⟩, ["x"]⟩) :=
  ⟨by decide, by decide,
   c2_bad_name_orphan_free _ 7 (some " ") (some "d") (some "t") (by decide)
     (fun tok h => by
       simp at h
       subst h
       decide)⟩



